import Mathlib

/-!
Shallow embedding of the analytic/alerting core of `src/Monitoring.py`
(class `AdvancedPatientMonitor` and the alert-checking part of
`MonitoringGUI`).

Modelling conventions:
* Physiological values (`spo2`, `heart_rate`, `respiratory_rate`,
  `temperature`, blood pressures) are rationals (`ℚ`), timestamps are
  naturals.
* The per-patient in-memory state `self.data` / `self.alerts` and the
  SQLite tables are a `MonitorState` record of lists; `INSERT` is list
  append.
* `sklearn.LinearRegression.fit` on the pairs `(i, y i)` is embedded by
  the closed-form ordinary-least-squares solution (`olsSlope`,
  `olsIntercept`); when the design matrix has zero variance (window of
  length ≤ 1) the centred least-squares computation returns slope 0 and
  intercept equal to the mean, which is what the closed form below does
  via the `olsDenom = 0` guard.
* `sklearn.IsolationForest` is a randomized external model; it is
  embedded as an opaque parameter `model : List (ℚ × ℚ × ℚ) → List Bool`
  (`true` = the sample is labelled an outlier, i.e. prediction `-1`),
  applied to the 10×3 feature matrix that `detect_anomalies` builds.
* The SMTP transport of `send_email_alert` is an external effect; it is
  embedded as an `Except String Unit` outcome argument, and the
  `try/except` wrapper makes the embedded function total, returning an
  `EmailOutcome` instead of propagating the error.
-/

namespace Monitoring

/-- Alert types actually emitted by the source (`send_alert` call sites). -/
inductive AlertType
  | spo2_low
  | heart_rate_high
  | respiratory_rate_high
  | temperature_high
  | exacerbation
deriving DecidableEq, Repr

/-- Severity labels stored in the `alerts` table (`save_alert`). -/
inductive Severity
  | low
  | medium
  | high
deriving DecidableEq, Repr

/-- A persisted alert row; the free-text message is not modelled. -/
structure Alert where
  atype : AlertType
  severity : Severity
deriving DecidableEq, Repr

/-- One sensor reading, as built by `simulate_measurement` /
`read_sensor_data` (the fields the analytics consume). -/
structure Measurement where
  time : ℕ
  spo2 : ℚ
  heart_rate : ℚ
  respiratory_rate : ℚ
  temperature : ℚ
  systolic_bp : ℚ
  diastolic_bp : ℚ
  activity_level : String
deriving DecidableEq, Repr

/-- Alert thresholds from `config["alert_thresholds"]`. -/
structure Thresholds where
  spo2_low : ℚ
  heart_rate_high : ℚ
  respiratory_rate_high : ℚ
  temperature_high : ℚ
deriving DecidableEq, Repr

/-- The per-monitor mutable state: the `self.data` per-channel lists,
the in-memory `self.alerts` list, and the SQLite `measurements` and
`alerts` tables. -/
structure MonitorState where
  timestamps : List ℕ
  spo2 : List ℚ
  heart_rate : List ℚ
  respiratory_rate : List ℚ
  temperature : List ℚ
  systolic_bp : List ℚ
  diastolic_bp : List ℚ
  activity_level : List String
  alerts : List Alert
  dbMeasurements : List Measurement
  dbAlerts : List Alert
deriving DecidableEq, Repr

/-- The empty state of a fresh `AdvancedPatientMonitor`. -/
def initialState : MonitorState :=
  { timestamps := [], spo2 := [], heart_rate := [], respiratory_rate := []
    temperature := [], systolic_bp := [], diastolic_bp := [], activity_level := []
    alerts := [], dbMeasurements := [], dbAlerts := [] }

/-- `save_alert`: one row into the `alerts` table and one entry appended
to the in-memory `self.alerts` list. -/
def saveAlert (t : AlertType) (sev : Severity) (s : MonitorState) : MonitorState :=
  { s with dbAlerts := s.dbAlerts ++ [⟨t, sev⟩], alerts := s.alerts ++ [⟨t, sev⟩] }

/-- The severity classification in `send_alert`:
`severity = "high" if alert_type == "exacerbation" else "medium"`. -/
def severityFor (t : AlertType) : Severity :=
  if t = AlertType.exacerbation then Severity.high else Severity.medium

/-- The state effect of `send_alert`: classify and persist (the console
print and optional email leave `MonitorState` unchanged). -/
def sendAlertState (t : AlertType) (s : MonitorState) : MonitorState :=
  saveAlert t (severityFor t) s

/-- `config["email_alerts"]`. -/
structure EmailConfig where
  enabled : Bool
  sender_email : String
  recipient_emails : List String
deriving DecidableEq, Repr

/-- What became of one email attempt: skipped (missing sender or
recipients), sent, or a delivery failure that was caught and logged. -/
inductive EmailOutcome
  | skipped
  | sent
  | failedLogged
deriving DecidableEq, Repr

/-- `send_email_alert`: the whole body runs inside `try/except`, so
every transport outcome is mapped to an ordinary `EmailOutcome` value;
no exception escapes. `transport` is the external SMTP delivery. -/
def sendEmailAlert (cfg : EmailConfig) (transport : Except String Unit) : EmailOutcome :=
  if cfg.sender_email = "" ∨ cfg.recipient_emails = [] then EmailOutcome.skipped
  else
    match transport with
    | Except.ok _ => EmailOutcome.sent
    | Except.error _ => EmailOutcome.failedLogged

/-- `send_alert` with the email channel modelled: the alert is saved
first, then, when email alerts are enabled, delivery is attempted. -/
def sendAlert (cfg : EmailConfig) (transport : Except String Unit) (t : AlertType)
    (s : MonitorState) : MonitorState × Option EmailOutcome :=
  let s1 := sendAlertState t s
  if cfg.enabled then (s1, some (sendEmailAlert cfg transport)) else (s1, none)

/-- `MonitoringGUI.check_measurement_alerts`: the four independent
threshold rules, each firing `send_alert` when it matches. -/
def checkMeasurementAlerts (th : Thresholds) (m : Measurement) (s : MonitorState) : MonitorState :=
  let s1 := if m.spo2 < th.spo2_low then sendAlertState AlertType.spo2_low s else s
  let s2 := if th.heart_rate_high < m.heart_rate then
      sendAlertState AlertType.heart_rate_high s1 else s1
  let s3 := if th.respiratory_rate_high < m.respiratory_rate then
      sendAlertState AlertType.respiratory_rate_high s2 else s2
  if th.temperature_high < m.temperature then
    sendAlertState AlertType.temperature_high s3 else s3

/-- The set (ordered list) of conditions that fire for a measurement,
read off from the four `if` statements of `check_measurement_alerts`. -/
def firedConditions (th : Thresholds) (m : Measurement) : List AlertType :=
  (if m.spo2 < th.spo2_low then [AlertType.spo2_low] else []) ++
  (if th.heart_rate_high < m.heart_rate then [AlertType.heart_rate_high] else []) ++
  (if th.respiratory_rate_high < m.respiratory_rate then [AlertType.respiratory_rate_high] else []) ++
  (if th.temperature_high < m.temperature then [AlertType.temperature_high] else [])

/-- `simulate_measurement`: append the reading to every in-memory
channel list and insert it into the `measurements` table.  There is no
eviction and no timestamp check. -/
def simulateMeasurement (m : Measurement) (s : MonitorState) : MonitorState :=
  { s with
    timestamps := s.timestamps ++ [m.time]
    spo2 := s.spo2 ++ [m.spo2]
    heart_rate := s.heart_rate ++ [m.heart_rate]
    respiratory_rate := s.respiratory_rate ++ [m.respiratory_rate]
    temperature := s.temperature ++ [m.temperature]
    systolic_bp := s.systolic_bp ++ [m.systolic_bp]
    diastolic_bp := s.diastolic_bp ++ [m.diastolic_bp]
    activity_level := s.activity_level ++ [m.activity_level]
    dbMeasurements := s.dbMeasurements ++ [m] }

/-- A symptom-log entry as built by `log_symptom`. -/
structure SymptomEntry where
  symptom : String
  severity : ℕ
  notes : String
deriving DecidableEq, Repr

/-- ASCII lower-casing of one character, the fragment of Python's
`str.lower` relevant to the symptom labels the source compares. -/
def lowerChar (c : Char) : Char :=
  if 65 ≤ c.toNat ∧ c.toNat ≤ 90 then Char.ofNat (c.toNat + 32) else c

/-- `symptom.lower()` on the symptom label (ASCII fragment of Python's
Unicode lower-casing; the fixed comparison set is pure ASCII). -/
def pyLower (s : String) : String := String.mk (s.data.map lowerChar)

/-- The hardcoded respiratory symptom list of `check_exacerbation`. -/
def respiratorySymptoms : List String := ["essoufflement", "toux", "fatigue"]

/-- `check_exacerbation`: with a non-empty spo2 history, fire an
exacerbation alert when the lowercased symptom is in the fixed list,
severity is at least 7 and the latest spo2 is below the literal `92`
(the source compares against the constant 92, not the configured
threshold).  Returns the new state and the boolean the method returns. -/
def checkExacerbation (e : SymptomEntry) (s : MonitorState) : MonitorState × Bool :=
  match s.spo2.getLast? with
  | some latest =>
      if pyLower e.symptom ∈ respiratorySymptoms ∧ 7 ≤ e.severity ∧ latest < 92 then
        (sendAlertState AlertType.exacerbation s, true)
      else (s, false)
  | none => (s, false)

/-! ### Trend forecaster (`predict_deterioration`) -/

/-- Result of `predict_deterioration` (the three return strings). -/
inductive ForecastResult
  | insufficientData
  | deterioration
  | noDeterioration
deriving DecidableEq, Repr

/-- Sum of the regression indices `0, …, n-1` (`np.arange(n)`). -/
def idxSum (n : ℕ) : ℚ := ∑ i in Finset.range n, (i : ℚ)

/-- Sum of the squared regression indices. -/
def idxSqSum (n : ℕ) : ℚ := ∑ i in Finset.range n, (i : ℚ) ^ 2

/-- Sum of the window values. -/
def ySum (d : List ℚ) : ℚ := ∑ i in Finset.range d.length, d.getD i 0

/-- Sum of index-times-value over the window. -/
def xySum (d : List ℚ) : ℚ := ∑ i in Finset.range d.length, (i : ℚ) * d.getD i 0

/-- Determinant of the least-squares normal equations for indices
`0, …, n-1`. -/
def olsDenom (n : ℕ) : ℚ := (n : ℚ) * idxSqSum n - idxSum n ^ 2

/-- Slope of the ordinary-least-squares line fitted by
`LinearRegression().fit(X, y)` on `(i, d[i])`; for a degenerate window
(length ≤ 1) the centred solver yields slope 0. -/
def olsSlope (d : List ℚ) : ℚ :=
  if olsDenom d.length = 0 then 0
  else ((d.length : ℚ) * xySum d - idxSum d.length * ySum d) / olsDenom d.length

/-- Intercept of the fitted line (`mean y - slope * mean x`). -/
def olsIntercept (d : List ℚ) : ℚ :=
  if d.length = 0 then 0 else (ySum d - olsSlope d * idxSum d.length) / (d.length : ℚ)

/-- `model.predict` at index `x` for the fitted line. -/
def olsPredict (d : List ℚ) (x : ℚ) : ℚ := olsSlope d * x + olsIntercept d

/-- Residual sum of squares of the line `y = a*x + b` on the window
`d` with indices `0, …, length-1` as abscissae. -/
def rss (d : List ℚ) (a b : ℚ) : ℚ :=
  ∑ i in Finset.range d.length, (d.getD i 0 - (a * (i : ℚ) + b)) ^ 2

/-- `predict_deterioration(hours)`: insufficient data below
`window_size` samples; otherwise fit the least-squares line to the last
`window_size` samples and report deterioration iff any of the `hours`
extrapolated points (at indices `window_size, …`) is below the
configured spo2 threshold. -/
def predictDeterioration (windowSize : ℕ) (spo2Low : ℚ) (hours : ℕ)
    (spo2 : List ℚ) : ForecastResult :=
  if spo2.length < windowSize then ForecastResult.insufficientData
  else
    let d := spo2.drop (spo2.length - windowSize)
    if (List.range hours).any
        (fun k => decide (olsPredict d ((d.length : ℚ) + (k : ℚ)) < spo2Low)) then
      ForecastResult.deterioration
    else ForecastResult.noDeterioration

/-! ### Anomaly scorer (`detect_anomalies`) -/

/-- Result of `detect_anomalies` (the three return strings; the anomaly
message carries the outlier count). -/
inductive AnomalyResult
  | insufficientData
  | anomaly (count : ℕ)
  | noAnomaly
deriving DecidableEq, Repr

/-- The last ten entries of a channel (`lst[-10:]` for a list of length
at least 10). -/
def lastTen (l : List ℚ) : List ℚ := l.drop (l.length - 10)

/-- The 10×3 feature matrix `np.array([spo2[-10:], hr[-10:], rr[-10:]]).T`:
one `(spo2, heart_rate, respiratory_rate)` row per sample. -/
def featureMatrix (spo2 hr rr : List ℚ) : List (ℚ × ℚ × ℚ) :=
  (lastTen spo2).zip ((lastTen hr).zip (lastTen rr)) |>.map
    (fun p => (p.1, p.2.1, p.2.2))

/-- The `anomaly_count` computed by `detect_anomalies`: how many samples
the fitted model labels as outliers (`predictions == -1`). -/
def outlierCount (model : List (ℚ × ℚ × ℚ) → List Bool) (spo2 hr rr : List ℚ) : ℕ :=
  ((model (featureMatrix spo2 hr rr)).filter (fun b => b)).length

/-- `detect_anomalies`: insufficient data below 10 samples; otherwise
fit the outlier `model` (IsolationForest, contamination 0.1) to the
feature matrix, count the outlier labels, and report an anomaly with
that count iff the count exceeds 2. -/
def detectAnomalies (model : List (ℚ × ℚ × ℚ) → List Bool)
    (spo2 hr rr : List ℚ) : AnomalyResult :=
  if spo2.length < 10 then AnomalyResult.insufficientData
  else
    if 2 < outlierCount model spo2 hr rr then
      AnomalyResult.anomaly (outlierCount model spo2 hr rr)
    else AnomalyResult.noAnomaly

/-- `config["prediction_settings"]`. -/
structure PredictionSettings where
  window_size : ℕ
  forecast_hours : ℕ
deriving DecidableEq, Repr

/-- The whole configuration record used by the analytics. -/
structure Config where
  alert_thresholds : Thresholds
  email_alerts : EmailConfig
  prediction_settings : PredictionSettings
deriving DecidableEq, Repr

/-- The default configuration returned by `load_config` when the config
file is absent (the SMTP server fields, which only the external
transport reads, are not modelled). -/
def defaultConfig : Config :=
  { alert_thresholds := { spo2_low := 92, heart_rate_high := 110
                          respiratory_rate_high := 25, temperature_high := 38 }
    email_alerts := { enabled := false, sender_email := "", recipient_emails := [] }
    prediction_settings := { window_size := 10, forecast_hours := 6 } }

/-- `predict_deterioration` as a method: reads `window_size` and
`spo2_low` from the configuration and the history from the state. -/
def predictDeteriorationM (cfg : Config) (hours : ℕ) (s : MonitorState) : ForecastResult :=
  predictDeterioration cfg.prediction_settings.window_size
    cfg.alert_thresholds.spo2_low hours s.spo2

/-- `detect_anomalies` as a method: the body reads no configuration at
all, only the last ten samples of the three channels. -/
def detectAnomaliesM (model : List (ℚ × ℚ × ℚ) → List Bool) (s : MonitorState) : AnomalyResult :=
  detectAnomalies model s.spo2 s.heart_rate s.respiratory_rate

/-- The analytic calls made by `generate_comprehensive_report`: it runs
the forecaster (with the default horizon 6) and the anomaly scorer and
splices their result strings into the report; it appends no alert, so
the state comes back unchanged. -/
def generateReportAnalytics (cfg : Config) (model : List (ℚ × ℚ × ℚ) → List Bool)
    (s : MonitorState) : ForecastResult × AnomalyResult × MonitorState :=
  (predictDeteriorationM cfg 6 s, detectAnomaliesM model s, s)

/-- The ten-sample strictly decreasing history used to exhibit a fired
forecaster finding. -/
def decliningState : MonitorState :=
  { initialState with
    spo2 := [98, 96, 94, 92, 90, 88, 86, 84, 82, 80]
    heart_rate := [80, 80, 80, 80, 80, 80, 80, 80, 80, 80]
    respiratory_rate := [16, 16, 16, 16, 16, 16, 16, 16, 16, 16] }

/-! ### Helper lemmas: the closed-form fit is the least-squares minimiser -/


lemma idxSum_eq (n : ℕ) : idxSum n = (n : ℚ) * ((n : ℚ) - 1) / 2 := by
  induction n with
  | zero => simp [idxSum]
  | succ k ih =>
      rw [idxSum, Finset.sum_range_succ, ← idxSum, ih]
      push_cast
      ring

lemma idxSqSum_eq (n : ℕ) :
    idxSqSum n = (n : ℚ) * ((n : ℚ) - 1) * (2 * (n : ℚ) - 1) / 6 := by
  induction n with
  | zero => simp [idxSqSum]
  | succ k ih =>
      rw [idxSqSum, Finset.sum_range_succ, ← idxSqSum, ih]
      push_cast
      ring

lemma olsDenom_eq (n : ℕ) : olsDenom n = (n : ℚ) ^ 2 * ((n : ℚ) ^ 2 - 1) / 12 := by
  rw [olsDenom, idxSum_eq, idxSqSum_eq]
  ring

lemma olsDenom_pos {n : ℕ} (h : 2 ≤ n) : 0 < olsDenom n := by
  rw [olsDenom_eq]
  have h2 : (2 : ℚ) ≤ (n : ℚ) := by exact_mod_cast h
  have hp : (0 : ℚ) < (n : ℚ) ^ 2 := by positivity
  have hq : (0 : ℚ) < (n : ℚ) ^ 2 - 1 := by nlinarith
  positivity

lemma rss_nonneg (d : List ℚ) (a b : ℚ) : 0 ≤ rss d a b :=
  Finset.sum_nonneg fun _ _ => sq_nonneg _

lemma sum_residuals (d : List ℚ) (hn : d.length ≠ 0) :
    ∑ i in Finset.range d.length,
      (d.getD i 0 - (olsSlope d * (i : ℚ) + olsIntercept d)) = 0 := by
  have hn' : ((d.length : ℚ)) ≠ 0 := Nat.cast_ne_zero.mpr hn
  rw [Finset.sum_sub_distrib, Finset.sum_add_distrib, ← Finset.mul_sum,
    Finset.sum_const, Finset.card_range, nsmul_eq_mul, ← ySum, ← idxSum,
    olsIntercept, if_neg hn]
  field_simp

lemma sum_x_residuals (d : List ℚ) (hd : olsDenom d.length ≠ 0) (hn : d.length ≠ 0) :
    ∑ i in Finset.range d.length,
      (i : ℚ) * (d.getD i 0 - (olsSlope d * (i : ℚ) + olsIntercept d)) = 0 := by
  have hn' : ((d.length : ℚ)) ≠ 0 := Nat.cast_ne_zero.mpr hn
  have expand : ∀ i ∈ Finset.range d.length,
      (i : ℚ) * (d.getD i 0 - (olsSlope d * (i : ℚ) + olsIntercept d))
        = (i : ℚ) * d.getD i 0 - olsSlope d * (i : ℚ) ^ 2 - olsIntercept d * (i : ℚ) := by
    intro i _
    ring
  rw [Finset.sum_congr rfl expand, Finset.sum_sub_distrib, Finset.sum_sub_distrib,
    ← Finset.mul_sum, ← Finset.mul_sum, ← xySum, ← idxSqSum, ← idxSum,
    olsIntercept, if_neg hn, olsSlope, if_neg hd, olsDenom]
  rw [olsDenom] at hd
  field_simp
  ring

lemma rss_ols_le (d : List ℚ) (a b : ℚ) :
    rss d (olsSlope d) (olsIntercept d) ≤ rss d a b := by
  by_cases h2 : 2 ≤ d.length
  · have hd : olsDenom d.length ≠ 0 := ne_of_gt (olsDenom_pos h2)
    have hn : d.length ≠ 0 := by omega
    have pt : ∀ i ∈ Finset.range d.length,
        (d.getD i 0 - (a * (i : ℚ) + b)) ^ 2
          = (d.getD i 0 - (olsSlope d * (i : ℚ) + olsIntercept d)) ^ 2
            + ((a - olsSlope d) * (i : ℚ) + (b - olsIntercept d)) ^ 2
            - 2 * (a - olsSlope d) *
                ((i : ℚ) * (d.getD i 0 - (olsSlope d * (i : ℚ) + olsIntercept d)))
            - 2 * (b - olsIntercept d) *
                (d.getD i 0 - (olsSlope d * (i : ℚ) + olsIntercept d)) := by
      intro i _
      ring
    have key : rss d a b = rss d (olsSlope d) (olsIntercept d)
        + ∑ i in Finset.range d.length,
            ((a - olsSlope d) * (i : ℚ) + (b - olsIntercept d)) ^ 2 := by
      rw [rss, Finset.sum_congr rfl pt, Finset.sum_sub_distrib, Finset.sum_sub_distrib,
        Finset.sum_add_distrib, ← Finset.mul_sum, ← Finset.mul_sum,
        sum_residuals d hn, sum_x_residuals d hd hn, ← rss]
      ring
    rw [key]
    exact le_add_of_nonneg_right (Finset.sum_nonneg fun i _ => sq_nonneg _)
  · have h01 : d.length = 0 ∨ d.length = 1 := by omega
    rcases h01 with h | h
    · rw [rss, rss, h]
      simp
    · have hzero : rss d (olsSlope d) (olsIntercept d) = 0 := by
        have hsl : olsSlope d = 0 := by
          rw [olsSlope, if_pos]
          rw [h, olsDenom, idxSqSum, idxSum]
          simp
        have hic : olsIntercept d = d.getD 0 0 := by
          rw [olsIntercept, if_neg (by omega : d.length ≠ 0), hsl, ySum, h]
          simp
        rw [rss, h, Finset.sum_range_one, hsl, hic]
        ring
      rw [hzero]
      exact rss_nonneg d a b

end Monitoring


namespace Monitoring

lemma checkMeasurementAlerts_eq_foldl (th : Thresholds) (m : Measurement) (s : MonitorState) :
    checkMeasurementAlerts th m s
      = (firedConditions th m).foldl (fun st t => sendAlertState t st) s := by
  simp only [checkMeasurementAlerts, firedConditions]
  split_ifs <;> rfl

lemma foldl_sendAlertState_alerts (l : List AlertType) (s : MonitorState) :
    (l.foldl (fun st t => sendAlertState t st) s).alerts
      = s.alerts ++ l.map (fun t => Alert.mk t (severityFor t)) := by
  induction l generalizing s with
  | nil => simp
  | cons t l ih =>
      rw [List.foldl_cons, ih]
      simp [sendAlertState, saveAlert]

lemma foldl_sendAlertState_dbAlerts (l : List AlertType) (s : MonitorState) :
    (l.foldl (fun st t => sendAlertState t st) s).dbAlerts
      = s.dbAlerts ++ l.map (fun t => Alert.mk t (severityFor t)) := by
  induction l generalizing s with
  | nil => simp
  | cons t l ih =>
      rw [List.foldl_cons, ih]
      simp [sendAlertState, saveAlert]

/-- Claim C1: the threshold evaluator fires exactly the matching rules, each
evaluated independently, and is deterministic and stateless. -/
theorem C1_threshold_rules :
    ∀ (th : Thresholds) (m : Measurement),
      (AlertType.spo2_low ∈ firedConditions th m ↔ m.spo2 < th.spo2_low)
      ∧ (AlertType.heart_rate_high ∈ firedConditions th m ↔ th.heart_rate_high < m.heart_rate)
      ∧ (AlertType.respiratory_rate_high ∈ firedConditions th m ↔
          th.respiratory_rate_high < m.respiratory_rate)
      ∧ (AlertType.temperature_high ∈ firedConditions th m ↔ th.temperature_high < m.temperature)
      ∧ AlertType.exacerbation ∉ firedConditions th m
      ∧ (∀ s : MonitorState, checkMeasurementAlerts th m s
            = (firedConditions th m).foldl (fun st t => sendAlertState t st) s)
      ∧ (∀ th2 m2, th2 = th → m2 = m → firedConditions th2 m2 = firedConditions th m) := by
  intro th m
  refine ⟨?_, ?_, ?_, ?_, ?_, checkMeasurementAlerts_eq_foldl th m, ?_⟩
  · simp only [firedConditions, List.mem_append]
    split_ifs <;> simp_all
  · simp only [firedConditions, List.mem_append]
    split_ifs <;> simp_all
  · simp only [firedConditions, List.mem_append]
    split_ifs <;> simp_all
  · simp only [firedConditions, List.mem_append]
    split_ifs <;> simp_all
  · simp only [firedConditions, List.mem_append]
    split_ifs <;> simp_all
  · intro th2 m2 h1 h2
    rw [h1, h2]

/-- Witness for C1: the spec's example measurement with spo2 90 against
threshold 92 fires spo2_low and nothing else. -/
theorem C1_threshold_rules_witness :
    (AlertType.spo2_low ∈
        firedConditions (Thresholds.mk 92 110 25 38) (Measurement.mk 0 90 80 16 37 120 80 "repos")
      ↔ (90 : ℚ) < 92)
    ∧ firedConditions (Thresholds.mk 92 110 25 38) (Measurement.mk 0 90 80 16 37 120 80 "repos")
        = firedConditions (Thresholds.mk 92 110 25 38) (Measurement.mk 0 90 80 16 37 120 80 "repos")
    ∧ firedConditions (Thresholds.mk 92 110 25 38) (Measurement.mk 0 90 80 16 37 120 80 "repos")
        = [AlertType.spo2_low]
    ∧ firedConditions (Thresholds.mk 92 110 25 38) (Measurement.mk 0 95 80 16 37 120 80 "repos")
        = [] :=
  ⟨(C1_threshold_rules (Thresholds.mk 92 110 25 38) (Measurement.mk 0 90 80 16 37 120 80 "repos")).1,
   (C1_threshold_rules (Thresholds.mk 92 110 25 38)
      (Measurement.mk 0 90 80 16 37 120 80 "repos")).2.2.2.2.2.2 _ _ rfl rfl,
   by decide, by decide⟩


lemma checkExacerbation_none (e : SymptomEntry) (s : MonitorState)
    (h : s.spo2.getLast? = none) : checkExacerbation e s = (s, false) := by
  unfold checkExacerbation
  rw [h]

lemma checkExacerbation_some (e : SymptomEntry) (s : MonitorState) (latest : ℚ)
    (h : s.spo2.getLast? = some latest) :
    checkExacerbation e s
      = if pyLower e.symptom ∈ respiratorySymptoms ∧ 7 ≤ e.severity ∧ latest < 92 then
          (sendAlertState AlertType.exacerbation s, true)
        else (s, false) := by
  unfold checkExacerbation
  rw [h]

/-- Counterexample to C2: with the configured threshold spo2_low = 95
and latest spo2 = 93, the claim's condition (respiratory symptom, severity
at least 7, spo2 below the configured threshold) holds, yet
`check_exacerbation` fires nothing, because the source compares the
latest spo2 with the literal 92 rather than the configured threshold. -/
theorem C2_counterexample :
    (Thresholds.mk 95 110 25 38).spo2_low = 95
    ∧ (93 : ℚ) < (Thresholds.mk 95 110 25 38).spo2_low
    ∧ pyLower "toux" ∈ respiratorySymptoms
    ∧ 7 ≤ 8
    ∧ ({ initialState with spo2 := [93] } : MonitorState).spo2.getLast? = some 93
    ∧ (checkExacerbation (SymptomEntry.mk "toux" 8 "")
        { initialState with spo2 := [93] }).2 = false
    ∧ (checkExacerbation (SymptomEntry.mk "toux" 8 "")
        { initialState with spo2 := [93] }).1.alerts = [] := by
  exact ⟨rfl, by decide, by decide, by decide, rfl, by decide, by decide⟩

/-- Claim C2 (amended): the exacerbation correlator fires, with an alert of
severity high, iff the window is non-empty, the lowercased symptom label
is in the fixed respiratory set, severity is at least 7 and the latest
spo2 is below the fixed literal 92; the empty window yields no finding
and no error. -/
theorem C2_exacerbation_amended :
    ∀ (e : SymptomEntry) (s : MonitorState),
      ((checkExacerbation e s).2 = true ↔
        ∃ latest, s.spo2.getLast? = some latest
          ∧ pyLower e.symptom ∈ respiratorySymptoms
          ∧ 7 ≤ e.severity
          ∧ latest < 92)
      ∧ (s.spo2 = [] → checkExacerbation e s = (s, false))
      ∧ ((checkExacerbation e s).2 = true →
          (checkExacerbation e s).1.alerts
            = s.alerts ++ [Alert.mk AlertType.exacerbation Severity.high]
          ∧ (checkExacerbation e s).1.dbAlerts
            = s.dbAlerts ++ [Alert.mk AlertType.exacerbation Severity.high])
      ∧ ((checkExacerbation e s).2 = false → (checkExacerbation e s).1 = s) := by
  intro e s
  refine ⟨?_, ?_, ?_, ?_⟩
  · constructor
    · intro h
      rcases hl : s.spo2.getLast? with _ | latest
      · rw [checkExacerbation_none e s hl] at h
        simp at h
      · by_cases hc : pyLower e.symptom ∈ respiratorySymptoms ∧ 7 ≤ e.severity ∧ latest < 92
        · exact ⟨latest, rfl, hc.1, hc.2.1, hc.2.2⟩
        · rw [checkExacerbation_some e s latest hl, if_neg hc] at h
          simp at h
    · rintro ⟨latest, hl, h1, h2, h3⟩
      rw [checkExacerbation_some e s latest hl, if_pos ⟨h1, h2, h3⟩]
  · intro h
    have hl : s.spo2.getLast? = none := by
      rw [h]
      rfl
    exact checkExacerbation_none e s hl
  · intro h
    rcases hl : s.spo2.getLast? with _ | latest
    · rw [checkExacerbation_none e s hl] at h
      simp at h
    · by_cases hc : pyLower e.symptom ∈ respiratorySymptoms ∧ 7 ≤ e.severity ∧ latest < 92
      · rw [checkExacerbation_some e s latest hl, if_pos hc]
        constructor <;> simp [sendAlertState, saveAlert, severityFor]
      · rw [checkExacerbation_some e s latest hl, if_neg hc] at h
        simp at h
  · intro h
    rcases hl : s.spo2.getLast? with _ | latest
    · rw [checkExacerbation_none e s hl]
    · by_cases hc : pyLower e.symptom ∈ respiratorySymptoms ∧ 7 ≤ e.severity ∧ latest < 92
      · rw [checkExacerbation_some e s latest hl, if_pos hc] at h
        simp at h
      · rw [checkExacerbation_some e s latest hl, if_neg hc]

/-- Witness for C2 (amended): symptom "Toux" with severity 8 and latest
spo2 90 fires; an empty window yields no finding and an unchanged state. -/
theorem C2_exacerbation_amended_witness :
    ((checkExacerbation (SymptomEntry.mk "Toux" 8 "")
        { initialState with spo2 := [90] }).2 = true ↔
      ∃ latest, ({ initialState with spo2 := [90] } : MonitorState).spo2.getLast? = some latest
        ∧ pyLower "Toux" ∈ respiratorySymptoms
        ∧ 7 ≤ 8
        ∧ latest < 92)
    ∧ checkExacerbation (SymptomEntry.mk "Toux" 8 "") initialState = (initialState, false) :=
  ⟨(C2_exacerbation_amended (SymptomEntry.mk "Toux" 8 "")
      { initialState with spo2 := [90] }).1,
   (C2_exacerbation_amended (SymptomEntry.mk "Toux" 8 "") initialState).2.1 rfl⟩

/-- Counterexample to C4: with the default configured window size 10,
eleven appended measurements leave eleven entries in the in-memory
window: nothing is ever evicted. -/
theorem C4_counterexample :
    defaultConfig.prediction_settings.window_size = 10
    ∧ ((List.range 11).foldl
        (fun st i => simulateMeasurement (Measurement.mk i 95 80 16 37 120 80 "repos") st)
        initialState).spo2.length = 11
    ∧ ¬ (11 ≤ 10) := by
  refine ⟨rfl, by decide, by decide⟩

/-- Claim C4 (amended): the in-memory history retains every appended
measurement, in insertion order, with no eviction; the most recent `n`
samples are read off the tail of the lists by the analytics at call
time. -/
theorem C4_window_amended :
    ∀ (ms : List Measurement) (s : MonitorState),
      (ms.foldl (fun st m => simulateMeasurement m st) s).timestamps
          = s.timestamps ++ ms.map Measurement.time
      ∧ (ms.foldl (fun st m => simulateMeasurement m st) s).spo2
          = s.spo2 ++ ms.map Measurement.spo2
      ∧ (ms.foldl (fun st m => simulateMeasurement m st) s).heart_rate
          = s.heart_rate ++ ms.map Measurement.heart_rate
      ∧ (ms.foldl (fun st m => simulateMeasurement m st) s).respiratory_rate
          = s.respiratory_rate ++ ms.map Measurement.respiratory_rate
      ∧ (ms.foldl (fun st m => simulateMeasurement m st) s).dbMeasurements
          = s.dbMeasurements ++ ms := by
  intro ms
  induction ms with
  | nil =>
      intro s
      simp
  | cons m ms ih =>
      intro s
      refine ⟨?_, ?_, ?_, ?_, ?_⟩
      · rw [List.foldl_cons, (ih (simulateMeasurement m s)).1]
        simp [simulateMeasurement]
      · rw [List.foldl_cons, (ih (simulateMeasurement m s)).2.1]
        simp [simulateMeasurement]
      · rw [List.foldl_cons, (ih (simulateMeasurement m s)).2.2.1]
        simp [simulateMeasurement]
      · rw [List.foldl_cons, (ih (simulateMeasurement m s)).2.2.2.1]
        simp [simulateMeasurement]
      · rw [List.foldl_cons, (ih (simulateMeasurement m s)).2.2.2.2]
        simp [simulateMeasurement]

/-- Counterexample to C8: a measurement whose timestamp 3 regresses
behind the previously appended timestamp 5 is accepted silently; the
window ends up holding [5, 3], which is not sorted by timestamp, and no
error of any kind is produced (the append is a total function). -/
theorem C8_counterexample :
    (simulateMeasurement (Measurement.mk 3 95 80 16 37 120 80 "repos")
        (simulateMeasurement (Measurement.mk 5 95 80 16 37 120 80 "repos")
          initialState)).timestamps = [5, 3]
    ∧ ¬ List.Sorted (· ≤ ·)
        (simulateMeasurement (Measurement.mk 3 95 80 16 37 120 80 "repos")
          (simulateMeasurement (Measurement.mk 5 95 80 16 37 120 80 "repos")
            initialState)).timestamps := by
  exact ⟨by decide, by decide⟩

/-- Claim C8 (amended): `simulate_measurement` appends unconditionally in
insertion order, for every incoming timestamp; there is no
out-of-order check, no error path and no re-sorting. -/
theorem C8_append_amended :
    ∀ (m : Measurement) (s : MonitorState),
      (simulateMeasurement m s).timestamps = s.timestamps ++ [m.time]
      ∧ (simulateMeasurement m s).spo2 = s.spo2 ++ [m.spo2]
      ∧ (simulateMeasurement m s).alerts = s.alerts := by
  intro m s
  exact ⟨rfl, rfl, rfl⟩


/-- Claim C3: the trend forecaster returns InsufficientData below window_size
samples; otherwise it reports deterioration iff some of the `hours`
points extrapolated from the fitted line at indices windowSize, … falls
below the threshold; the fitted line is the ordinary-least-squares
minimiser of the residual sum of squares; and the spec's two concrete
windows behave as stated. -/
theorem C3_trend_forecaster :
    (∀ (w : ℕ) (low : ℚ) (h : ℕ) (hist : List ℚ), hist.length < w →
        predictDeterioration w low h hist = ForecastResult.insufficientData)
    ∧ (∀ (w : ℕ) (low : ℚ) (h : ℕ) (hist : List ℚ), w ≤ hist.length →
        (predictDeterioration w low h hist = ForecastResult.deterioration ↔
          ∃ k < h, olsPredict (hist.drop (hist.length - w)) ((w : ℚ) + (k : ℚ)) < low))
    ∧ (∀ (d : List ℚ) (a b : ℚ), rss d (olsSlope d) (olsIntercept d) ≤ rss d a b)
    ∧ predictDeterioration 5 92 3 [98, 96, 94, 92, 90] = ForecastResult.deterioration
    ∧ predictDeterioration 5 92 3 [98, 98, 98, 98, 98] = ForecastResult.noDeterioration := by
  refine ⟨?_, ?_, rss_ols_le, ?_, ?_⟩
  · intro w low h hist hlen
    simp only [predictDeterioration]
    rw [if_pos hlen]
  · intro w low h hist hlen
    have hl : (hist.drop (hist.length - w)).length = w := by
      rw [List.length_drop]
      omega
    simp only [predictDeterioration]
    rw [if_neg (not_lt.mpr hlen), hl]
    by_cases hany : ((List.range h).any
        (fun k => decide (olsPredict (hist.drop (hist.length - w)) ((w : ℚ) + (k : ℚ)) < low))
          = true)
    · rw [if_pos hany]
      simp only [List.any_eq_true, List.mem_range, decide_eq_true_eq] at hany
      obtain ⟨k, hk, hlt⟩ := hany
      exact ⟨fun _ => ⟨k, hk, hlt⟩, fun _ => rfl⟩
    · rw [if_neg hany]
      constructor
      · intro hcontra
        simp at hcontra
      · rintro ⟨k, hk, hlt⟩
        exfalso
        apply hany
        simp only [List.any_eq_true, List.mem_range, decide_eq_true_eq]
        exact ⟨k, hk, hlt⟩
  · norm_num [predictDeterioration, olsPredict, olsSlope, olsIntercept, olsDenom,
      idxSum, idxSqSum, ySum, xySum, Finset.sum_range_succ, List.range_succ]
  · norm_num [predictDeterioration, olsPredict, olsSlope, olsIntercept, olsDenom,
      idxSum, idxSqSum, ySum, xySum, Finset.sum_range_succ, List.range_succ]

/-- Witness for C3 at concrete windows: two samples are insufficient for
window 5, and the deterioration equivalence instantiated on the spec's
decreasing window. -/
theorem C3_trend_forecaster_witness :
    predictDeterioration 5 92 3 [98, 96] = ForecastResult.insufficientData
    ∧ (predictDeterioration 5 92 3 [98, 96, 94, 92, 90] = ForecastResult.deterioration ↔
        ∃ k : ℕ, k < 3 ∧ olsPredict (([98, 96, 94, 92, 90] : List ℚ).drop
            (([98, 96, 94, 92, 90] : List ℚ).length - 5)) ((5 : ℚ) + (k : ℚ)) < 92) :=
  ⟨C3_trend_forecaster.1 5 92 3 [98, 96] (by decide),
   C3_trend_forecaster.2.1 5 92 3 [98, 96, 94, 92, 90] (by decide)⟩

lemma checkExacerbation_fired_alerts (e : SymptomEntry) (s : MonitorState)
    (h : (checkExacerbation e s).2 = true) :
    (checkExacerbation e s).1.alerts
        = s.alerts ++ [Alert.mk AlertType.exacerbation Severity.high]
    ∧ (checkExacerbation e s).1.dbAlerts
        = s.dbAlerts ++ [Alert.mk AlertType.exacerbation Severity.high] := by
  rcases hl : s.spo2.getLast? with _ | latest
  · rw [checkExacerbation_none e s hl] at h
    simp at h
  · by_cases hc : pyLower e.symptom ∈ respiratorySymptoms ∧ 7 ≤ e.severity ∧ latest < 92
    · rw [checkExacerbation_some e s latest hl, if_pos hc]
      constructor <;> simp [sendAlertState, saveAlert, severityFor]
    · rw [checkExacerbation_some e s latest hl, if_neg hc] at h
      simp at h

/-- Counterexample to C5: under the default configuration a fired trend
forecaster finding (deterioration) produces zero alerts — the report
path never routes forecaster or scorer findings to `send_alert`, so they
do not result in exactly one appended Alert. -/
theorem C5_counterexample :
    (generateReportAnalytics defaultConfig (fun _ => []) decliningState).1
      = ForecastResult.deterioration
    ∧ (generateReportAnalytics defaultConfig (fun _ => []) decliningState).2.2.alerts = []
    ∧ (generateReportAnalytics defaultConfig (fun _ => []) decliningState).2.2.dbAlerts = [] := by
  refine ⟨?_, rfl, rfl⟩
  norm_num [generateReportAnalytics, predictDeteriorationM, defaultConfig, decliningState,
    initialState, predictDeterioration, olsPredict, olsSlope, olsIntercept, olsDenom,
    idxSum, idxSqSum, ySum, xySum, Finset.sum_range_succ, List.range_succ]

/-- Claim C5 (amended): each fired finding of the threshold evaluator and of
the exacerbation correlator appends exactly one Alert to the store and
to the in-memory list, classified exacerbation → high and everything
else → medium; forecaster and scorer findings are returned as report
text and never touch the alert store. -/
theorem C5_dispatcher_amended :
    (∀ (th : Thresholds) (m : Measurement) (s : MonitorState),
        (checkMeasurementAlerts th m s).alerts
          = s.alerts ++ (firedConditions th m).map (fun t => Alert.mk t (severityFor t))
        ∧ (checkMeasurementAlerts th m s).dbAlerts
          = s.dbAlerts ++ (firedConditions th m).map (fun t => Alert.mk t (severityFor t)))
    ∧ (∀ (e : SymptomEntry) (s : MonitorState), (checkExacerbation e s).2 = true →
        (checkExacerbation e s).1.alerts
            = s.alerts ++ [Alert.mk AlertType.exacerbation Severity.high]
        ∧ (checkExacerbation e s).1.dbAlerts
            = s.dbAlerts ++ [Alert.mk AlertType.exacerbation Severity.high])
    ∧ severityFor AlertType.exacerbation = Severity.high
    ∧ (∀ t, t ≠ AlertType.exacerbation → severityFor t = Severity.medium)
    ∧ (∀ cfg model s, (generateReportAnalytics cfg model s).2.2 = s) := by
  refine ⟨?_, checkExacerbation_fired_alerts, rfl, ?_, ?_⟩
  · intro th m s
    rw [checkMeasurementAlerts_eq_foldl]
    exact ⟨foldl_sendAlertState_alerts _ _, foldl_sendAlertState_dbAlerts _ _⟩
  · intro t ht
    rw [severityFor, if_neg ht]
  · intro cfg model s
    rfl

/-- Witness for C5 (amended): a measurement firing spo2_low and a
symptom firing exacerbation each append one classified alert. -/
theorem C5_dispatcher_amended_witness :
    ((checkMeasurementAlerts (Thresholds.mk 92 110 25 38)
        (Measurement.mk 0 90 80 16 37 120 80 "repos") initialState).alerts
      = ([] : List Alert) ++ (firedConditions (Thresholds.mk 92 110 25 38)
          (Measurement.mk 0 90 80 16 37 120 80 "repos")).map
            (fun t => Alert.mk t (severityFor t))
      ∧ (checkMeasurementAlerts (Thresholds.mk 92 110 25 38)
          (Measurement.mk 0 90 80 16 37 120 80 "repos") initialState).dbAlerts
        = ([] : List Alert) ++ (firedConditions (Thresholds.mk 92 110 25 38)
            (Measurement.mk 0 90 80 16 37 120 80 "repos")).map
              (fun t => Alert.mk t (severityFor t)))
    ∧ severityFor AlertType.spo2_low = Severity.medium :=
  ⟨C5_dispatcher_amended.1 (Thresholds.mk 92 110 25 38)
      (Measurement.mk 0 90 80 16 37 120 80 "repos") initialState,
   C5_dispatcher_amended.2.2.2.1 AlertType.spo2_low (by decide)⟩

/-- Claim C6: the anomaly scorer returns InsufficientData below ten samples;
with at least ten it applies the outlier model to the three-channel
feature matrix, and reports an anomaly carrying the outlier count iff
that count exceeds 2. -/
theorem C6_anomaly_scorer :
    ∀ (model : List (ℚ × ℚ × ℚ) → List Bool) (spo2 hr rr : List ℚ),
      (spo2.length < 10 →
        detectAnomalies model spo2 hr rr = AnomalyResult.insufficientData)
      ∧ (10 ≤ spo2.length → 2 < outlierCount model spo2 hr rr →
        detectAnomalies model spo2 hr rr
          = AnomalyResult.anomaly (outlierCount model spo2 hr rr))
      ∧ (10 ≤ spo2.length → outlierCount model spo2 hr rr ≤ 2 →
        detectAnomalies model spo2 hr rr = AnomalyResult.noAnomaly)
      ∧ (∀ c, detectAnomalies model spo2 hr rr = AnomalyResult.anomaly c →
        c = outlierCount model spo2 hr rr ∧ 2 < c) := by
  intro model spo2 hr rr
  refine ⟨?_, ?_, ?_, ?_⟩
  · intro h
    simp only [detectAnomalies]
    rw [if_pos h]
  · intro h1 h2
    simp only [detectAnomalies]
    rw [if_neg (not_lt.mpr h1), if_pos h2]
  · intro h1 h2
    simp only [detectAnomalies]
    rw [if_neg (not_lt.mpr h1), if_neg (not_lt.mpr h2)]
  · intro c hc
    simp only [detectAnomalies] at hc
    by_cases h1 : spo2.length < 10
    · rw [if_pos h1] at hc
      simp at hc
    · rw [if_neg h1] at hc
      by_cases h2 : 2 < outlierCount model spo2 hr rr
      · rw [if_pos h2] at hc
        cases hc
        exact ⟨rfl, h2⟩
      · rw [if_neg h2] at hc
        simp at hc

/-- Witness for C6: three samples are insufficient; with ten samples and
a model labelling every row an outlier, an anomaly with count ten fires. -/
theorem C6_anomaly_scorer_witness :
    detectAnomalies (fun rows => rows.map (fun _ => true)) [98, 98, 98] [80, 80, 80]
        [16, 16, 16] = AnomalyResult.insufficientData
    ∧ detectAnomalies (fun rows => rows.map (fun _ => true))
        [98, 98, 98, 98, 98, 98, 98, 98, 98, 98]
        [80, 80, 80, 80, 80, 80, 80, 80, 80, 80]
        [16, 16, 16, 16, 16, 16, 16, 16, 16, 16]
      = AnomalyResult.anomaly (outlierCount (fun rows => rows.map (fun _ => true))
          [98, 98, 98, 98, 98, 98, 98, 98, 98, 98]
          [80, 80, 80, 80, 80, 80, 80, 80, 80, 80]
          [16, 16, 16, 16, 16, 16, 16, 16, 16, 16])
    ∧ outlierCount (fun rows => rows.map (fun _ => true))
        [98, 98, 98, 98, 98, 98, 98, 98, 98, 98]
        [80, 80, 80, 80, 80, 80, 80, 80, 80, 80]
        [16, 16, 16, 16, 16, 16, 16, 16, 16, 16] = 10 :=
  ⟨(C6_anomaly_scorer (fun rows => rows.map (fun _ => true)) [98, 98, 98] [80, 80, 80]
      [16, 16, 16]).1 (by decide),
   (C6_anomaly_scorer (fun rows => rows.map (fun _ => true))
      [98, 98, 98, 98, 98, 98, 98, 98, 98, 98]
      [80, 80, 80, 80, 80, 80, 80, 80, 80, 80]
      [16, 16, 16, 16, 16, 16, 16, 16, 16, 16]).2.1 (by decide) (by decide),
   by decide⟩

/-- Claim C7: delivery failures of the outbound email are absorbed inside
`send_email_alert`; the alert is persisted before any delivery attempt
and the persisted state is identical for every transport outcome. -/
theorem C7_sink_failure_isolated :
    ∀ (cfg : EmailConfig) (transport : Except String Unit) (t : AlertType) (s : MonitorState),
      (sendAlert cfg transport t s).1 = sendAlertState t s
      ∧ (sendAlert cfg transport t s).1.alerts = s.alerts ++ [Alert.mk t (severityFor t)]
      ∧ (sendAlert cfg transport t s).1.dbAlerts = s.dbAlerts ++ [Alert.mk t (severityFor t)]
      ∧ (∀ transport2, (sendAlert cfg transport2 t s).1 = (sendAlert cfg transport t s).1)
      ∧ (∀ msg, cfg.sender_email ≠ "" → cfg.recipient_emails ≠ [] →
          sendEmailAlert cfg (Except.error msg) = EmailOutcome.failedLogged) := by
  intro cfg transport t s
  have hfst : ∀ tr : Except String Unit, (sendAlert cfg tr t s).1 = sendAlertState t s := by
    intro tr
    simp only [sendAlert]
    by_cases h : cfg.enabled = true
    · rw [if_pos h]
    · rw [if_neg h]
  refine ⟨hfst transport, ?_, ?_, ?_, ?_⟩
  · rw [hfst transport]
    simp [sendAlertState, saveAlert]
  · rw [hfst transport]
    simp [sendAlertState, saveAlert]
  · intro tr2
    rw [hfst tr2, hfst transport]
  · intro msg h1 h2
    simp only [sendEmailAlert]
    rw [if_neg (not_or.mpr ⟨h1, h2⟩)]

/-- Witness for C7: with email enabled, a failing transport still leaves
the alert persisted, and the failure is returned as a logged outcome. -/
theorem C7_sink_failure_isolated_witness :
    (sendAlert (EmailConfig.mk true "doc@x" ["a@b"]) (Except.error "down")
        AlertType.spo2_low initialState).1.alerts
      = ([] : List Alert) ++ [Alert.mk AlertType.spo2_low (severityFor AlertType.spo2_low)]
    ∧ sendEmailAlert (EmailConfig.mk true "doc@x" ["a@b"]) (Except.error "down")
        = EmailOutcome.failedLogged :=
  ⟨(C7_sink_failure_isolated (EmailConfig.mk true "doc@x" ["a@b"]) (Except.error "down")
      AlertType.spo2_low initialState).2.1,
   (C7_sink_failure_isolated (EmailConfig.mk true "doc@x" ["a@b"]) (Except.error "down")
      AlertType.spo2_low initialState).2.2.2.2 "down" (by decide) (by decide)⟩

/-- Claim C9: with fewer samples than required, the forecaster and the scorer
return the explicit InsufficientData result as an ordinary value,
whatever the history contains. -/
theorem C9_insufficient_data_total :
    ∀ (cfg : Config) (hours : ℕ) (model : List (ℚ × ℚ × ℚ) → List Bool) (s : MonitorState),
      (s.spo2.length < cfg.prediction_settings.window_size →
        predictDeteriorationM cfg hours s = ForecastResult.insufficientData)
      ∧ (s.spo2.length < 10 →
        detectAnomaliesM model s = AnomalyResult.insufficientData) := by
  intro cfg hours model s
  constructor
  · intro h
    simp only [predictDeteriorationM, predictDeterioration]
    rw [if_pos h]
  · intro h
    simp only [detectAnomaliesM, detectAnomalies]
    rw [if_pos h]

/-- Witness for C9: a one-sample history is insufficient for both the
forecaster (default window 10) and the scorer (minimum 10). -/
theorem C9_insufficient_data_total_witness :
    predictDeteriorationM defaultConfig 6 { initialState with spo2 := [95] }
        = ForecastResult.insufficientData
    ∧ detectAnomaliesM (fun _ => []) { initialState with spo2 := [95] }
        = AnomalyResult.insufficientData :=
  ⟨(C9_insufficient_data_total defaultConfig 6 (fun _ => [])
      { initialState with spo2 := [95] }).1 (by decide),
   (C9_insufficient_data_total defaultConfig 6 (fun _ => [])
      { initialState with spo2 := [95] }).2 (by decide)⟩

lemma lastTen_append (ps l : List ℚ) (h : 10 ≤ l.length) :
    lastTen (ps ++ l) = lastTen l := by
  rw [lastTen, lastTen, List.length_append,
    show ps.length + l.length - 10 = ps.length + (l.length - 10) by omega,
    List.drop_append]

lemma lastTen_length (l : List ℚ) (h : 10 ≤ l.length) : (lastTen l).length = 10 := by
  rw [lastTen, List.length_drop]
  omega

lemma lastTen_lastTen (l : List ℚ) (h : 10 ≤ l.length) :
    lastTen (lastTen l) = lastTen l := by
  conv_lhs => rw [lastTen]
  rw [lastTen_length l h]
  simp

/-- Claim C10: the anomaly scorer reads exactly the most recent ten samples of
each channel — prepending older history changes nothing, the result is a
function of the last ten samples alone, and the scorer's output is
independent of the whole configuration (in particular of window_size),
which only the forecaster consumes. -/
theorem C10_scorer_fixed_window :
    (∀ (model : List (ℚ × ℚ × ℚ) → List Bool) (ps ph pr spo2 hr rr : List ℚ),
        10 ≤ spo2.length → 10 ≤ hr.length → 10 ≤ rr.length →
        detectAnomalies model (ps ++ spo2) (ph ++ hr) (pr ++ rr)
          = detectAnomalies model spo2 hr rr)
    ∧ (∀ (model : List (ℚ × ℚ × ℚ) → List Bool) (spo2 hr rr : List ℚ),
        10 ≤ spo2.length → 10 ≤ hr.length → 10 ≤ rr.length →
        detectAnomalies model spo2 hr rr
          = detectAnomalies model (lastTen spo2) (lastTen hr) (lastTen rr))
    ∧ (∀ (cfg cfg2 : Config) (model : List (ℚ × ℚ × ℚ) → List Bool) (s : MonitorState),
        (generateReportAnalytics cfg model s).2.1
          = (generateReportAnalytics cfg2 model s).2.1) := by
  refine ⟨?_, ?_, ?_⟩
  · intro model ps ph pr spo2 hr rr h1 h2 h3
    have hlen : ¬ (ps ++ spo2).length < 10 := by
      rw [List.length_append]
      omega
    have hlen2 : ¬ spo2.length < 10 := by omega
    simp only [detectAnomalies, outlierCount, featureMatrix]
    rw [lastTen_append ps spo2 h1, lastTen_append ph hr h2, lastTen_append pr rr h3,
      if_neg hlen, if_neg hlen2]
  · intro model spo2 hr rr h1 h2 h3
    have hlen : ¬ spo2.length < 10 := by omega
    have hlen2 : ¬ (lastTen spo2).length < 10 := by
      rw [lastTen_length spo2 h1]
      omega
    simp only [detectAnomalies, outlierCount, featureMatrix]
    rw [lastTen_lastTen spo2 h1, lastTen_lastTen hr h2, lastTen_lastTen rr h3,
      if_neg hlen, if_neg hlen2]
  · intro cfg cfg2 model s
    rfl

/-- Witness for C10: prepending three older samples to a ten-sample
history leaves the scorer's verdict unchanged. -/
theorem C10_scorer_fixed_window_witness :
    detectAnomalies (fun rows => rows.map (fun _ => true))
        (([1, 2, 3] : List ℚ) ++ [98, 98, 98, 98, 98, 98, 98, 98, 98, 98])
        (([] : List ℚ) ++ [80, 80, 80, 80, 80, 80, 80, 80, 80, 80])
        (([] : List ℚ) ++ [16, 16, 16, 16, 16, 16, 16, 16, 16, 16])
      = detectAnomalies (fun rows => rows.map (fun _ => true))
        [98, 98, 98, 98, 98, 98, 98, 98, 98, 98]
        [80, 80, 80, 80, 80, 80, 80, 80, 80, 80]
        [16, 16, 16, 16, 16, 16, 16, 16, 16, 16] :=
  C10_scorer_fixed_window.1 (fun rows => rows.map (fun _ => true)) [1, 2, 3] [] []
    [98, 98, 98, 98, 98, 98, 98, 98, 98, 98]
    [80, 80, 80, 80, 80, 80, 80, 80, 80, 80]
    [16, 16, 16, 16, 16, 16, 16, 16, 16, 16] (by decide) (by decide) (by decide)

end Monitoring
